import Mathlib

/-!
Shallow embedding of the smarthome-tech/home-back Express server
(src/server.js, with the near-duplicate variant src/unnamed/part_001).
Request bodies are maps of optional string fields (a field absent from the
body is `none`; a field present with the empty string is `some ""`),
uploaded files are path/filename pairs, and the document store is a list of
documents.  Handlers are pure functions from a store and a request to a
response and an updated store; the mongoose schema validation that runs at
`save()` is modelled by `schemaValidates` / the guarded `saveProduct` and
`insertProduct`.
-/

namespace HomeBack

/-- The five valid product statuses (src/server.js line 53 and line 329). -/
def validStatuses : List String :=
  ["available", "restoring", "on_the_way", "out_of_stock", "discontinued"]

/-- JavaScript truthiness of an optional string body field: `undefined`
and the empty string are falsy, every other string is truthy. -/
def truthyOpt : Option String → Bool
  | none => false
  | some s => s != ""

/-- Whitespace as stripped by JS `String.prototype.trim`. -/
def isWsChar (c : Char) : Bool :=
  c == ' ' || c == '\t' || c == '\n' || c == '\r'

/-- JS `String.prototype.trim`: strips whitespace from both ends. -/
def jsTrim (s : String) : String :=
  ⟨((s.data.dropWhile isWsChar).reverse.dropWhile isWsChar).reverse⟩

/-- Digit accumulator: consumes a maximal digit prefix, returning the
accumulated value, the number of digits consumed and the rest. -/
def takeDigitsAux : List Char → Nat → Nat → Nat × Nat × List Char
  | [], acc, n => (acc, n, [])
  | c :: cs, acc, n =>
    if c.isDigit then takeDigitsAux cs (acc * 10 + (c.toNat - 48)) (n + 1)
    else (acc, n, c :: cs)

/-- An exact decimal number `mant / 10 ^ scale`, the value of a JS decimal
literal.  Exact decimals stand in for JS float64 values: all the program
does with a price is compare it with 0 and store it, and both are
preserved by the exact representation. -/
structure JsNum where
  mant : Int
  scale : Nat
deriving DecidableEq, Repr

/-- Models JS `parseFloat` on the decimal-literal fragment: leading
whitespace is skipped, an optional sign then a digit string with an
optional fractional part is parsed, trailing garbage is ignored; `none`
models the `NaN` result when no digit is found. -/
def parseFloatChars (l : List Char) : Option JsNum :=
  let l1 := l.dropWhile (fun c => c == ' ' || c == '\t' || c == '\n' || c == '\r')
  let signAndRest : Int × List Char :=
    match l1 with
    | '-' :: rest => (-1, rest)
    | '+' :: rest => (1, rest)
    | _ => (1, l1)
  let sign := signAndRest.1
  let afterInt := takeDigitsAux signAndRest.2 0 0
  let ip := afterInt.1
  let ipn := afterInt.2.1
  match afterInt.2.2 with
  | '.' :: rest =>
    let afterFrac := takeDigitsAux rest 0 0
    let fp := afterFrac.1
    let fpn := afterFrac.2.1
    if ipn = 0 && fpn = 0 then none
    else some ⟨sign * (ip * 10 ^ fpn + fp : Nat), fpn⟩
  | _ => if ipn = 0 then none else some ⟨sign * ip, 0⟩

/-- JS `parseFloat` on a string, NaN modelled as `none`. -/
def parseFloat (s : String) : Option JsNum := parseFloatChars s.data

/-- A stored product document (productSchema, src/server.js lines 37-61).
`price` is modelled as an exact decimal (the handler never stores NaN), the
optional `statusNote` / `expectedArrival` fields as options; dates are
opaque (`expectedArrival` keeps the raw string, `uploadDate` a tick). -/
structure Product where
  id : String
  name : String
  price : JsNum
  mainImage : String
  mainImagePublicId : String
  otherPhotos : List String
  otherPhotosPublicIds : List String
  description : String
  classifications : String
  status : String
  statusNote : Option String
  expectedArrival : Option String
  uploadDate : Nat
deriving DecidableEq, Repr

/-- Mongoose schema validation performed at `save()`: `name` is required
with `trim: true` (an all-whitespace name trims to the empty string and
fails `required`), `price` has `min: 0`, `mainImage`/`mainImagePublicId`
are required strings, and `status` is constrained to the enum
(src/server.js lines 37-61). -/
def schemaValidates (p : Product) : Bool :=
  jsTrim p.name != "" && decide (0 ≤ p.price.mant) && p.mainImage != "" &&
    p.mainImagePublicId != "" && validStatuses.contains p.status

/-- Hex digit, as accepted inside a 24-character ObjectId. -/
def isHexChar (c : Char) : Bool :=
  c.isDigit || ('a' ≤ c && c ≤ 'f') || ('A' ≤ c && c ≤ 'F')

/-- Well-formed store identifier (mongoose `ObjectId.isValid`): a
24-character hex string or a 12-character string. -/
def isWellFormedId (s : String) : Bool :=
  (s.length == 24 && s.data.all isHexChar) || s.length == 12

/-- `Product.findById`: throws a cast error (`Except.error`) on a
malformed identifier, otherwise returns the matching document if any. -/
def findById (st : List Product) (id : String) : Except Unit (Option Product) :=
  if isWellFormedId id then .ok (st.find? (fun p => p.id == id)) else .error ()

/-- A multipart-uploaded file as produced by the Cloudinary storage:
`path` is the public URL, `filename` the public id. -/
structure UploadedFile where
  path : String
  filename : String
deriving DecidableEq, Repr

/-- The `req.files` object of the product routes: `mainImage` present iff
a main image was uploaded, `otherPhotos` present iff at least one other
photo was uploaded. -/
structure ReqFiles where
  mainImage : Option UploadedFile
  otherPhotos : Option (List UploadedFile)
deriving DecidableEq, Repr

/-- A product request body; each field is `none` when absent. -/
structure Body where
  name : Option String
  price : Option String
  description : Option String
  classifications : Option String
  status : Option String
  statusNote : Option String
  expectedArrival : Option String
deriving DecidableEq, Repr

/-- HTTP responses of the product/settings handlers, restricted to what the
claims need. -/
inductive Resp where
  | ok200 (product : Product)
  | created201 (product : Product)
  | okMessage200
  | notFound404
  | badRequest400 (msg : String) (valid : List String)
  | serverError500 (msg : String)
deriving DecidableEq, Repr

/-- Mongoose `save()` on an existing document: if the schema validates,
the stored copy of the document is replaced in place and the handler
responds 200 with the document; otherwise the validation error is caught
and turned into the handler's 500 envelope, leaving the store unchanged. -/
def saveProduct (st : List Product) (msg : String) (p : Product) : Resp × List Product :=
  if schemaValidates p then
    (.ok200 p, st.map (fun q => if q.id == p.id then p else q))
  else (.serverError500 msg, st)

/-- Mongoose `save()` on a new document: if the schema validates, the
document is appended and the handler responds 201; otherwise the
validation error is caught into the handler's 500 envelope. -/
def insertProduct (st : List Product) (msg : String) (p : Product) : Resp × List Product :=
  if schemaValidates p then (.created201 p, st ++ [p])
  else (.serverError500 msg, st)

/-- The `productData` object built by POST /products/upload
(src/server.js lines 185-199): required fields from the validated body and
files, optional text fields via JS truthiness, status fields only when
truthy. -/
def buildCreateDoc (fid : String) (now : Nat) (body : Body) (mf : UploadedFile)
    (ofs : List UploadedFile) : Product :=
  { id := fid
    name := jsTrim (body.name.getD "")
    price := (parseFloat (body.price.getD "")).getD ⟨0, 0⟩
    mainImage := mf.path
    mainImagePublicId := mf.filename
    otherPhotos := ofs.map (fun f => f.path)
    otherPhotosPublicIds := ofs.map (fun f => f.filename)
    description := if truthyOpt body.description then body.description.getD "" else ""
    classifications := if truthyOpt body.classifications then jsTrim (body.classifications.getD "") else ""
    status := if truthyOpt body.status then body.status.getD "" else "available"
    statusNote := if truthyOpt body.statusNote then some (jsTrim (body.statusNote.getD "")) else none
    expectedArrival := if truthyOpt body.expectedArrival then body.expectedArrival else none
    uploadDate := now }

/-- POST /products/upload (src/server.js lines 152-215): validates name,
price and main image by truthiness/NaN checks, builds the document and
saves it. -/
def createProduct (st : List Product) (fid : String) (now : Nat)
    (body : Body) (files : ReqFiles) : Resp × List Product :=
  if !truthyOpt body.name then (.badRequest400 "Product name is required" [], st)
  else if !truthyOpt body.price || (parseFloat (body.price.getD "")).isNone then
    (.badRequest400 "Valid price is required" [], st)
  else
    match files.mainImage with
    | none => (.badRequest400 "Main image is required" [], st)
    | some mf =>
      insertProduct st "Failed to create product"
        (buildCreateDoc fid now body mf (files.otherPhotos.getD []))

/-- GET /products/:id (src/server.js lines 234-245). -/
def getProduct (st : List Product) (id : String) : Resp :=
  match findById st id with
  | .error _ => .serverError500 "Failed to fetch product"
  | .ok none => .notFound404
  | .ok (some p) => .ok200 p

/-- The first mutation of the PUT handler: `if (name) product.name =
name.trim()` (src/server.js line 270), which runs before the price check. -/
def nameStep (p0 : Product) (body : Body) : Product :=
  if truthyOpt body.name then { p0 with name := jsTrim (body.name.getD "") } else p0

/-- The remaining field mutations of the PUT handler after the price
check has passed (src/server.js lines 271-306), in source order. -/
def applyPutRest (p1 : Product) (body : Body) (files : ReqFiles) : Product :=
  let p2 := match body.price with
    | some pr => { p1 with price := (parseFloat pr).getD ⟨0, 0⟩ }
    | none => p1
  let p3 := match body.description with
    | some d => { p2 with description := d }
    | none => p2
  let p4 := match body.classifications with
    | some c => { p3 with classifications := jsTrim c }
    | none => p3
  let p5 := match body.status with
    | some s => { p4 with status := s }
    | none => p4
  let p6 := match body.statusNote with
    | some sn => { p5 with statusNote := some (jsTrim sn) }
    | none => p5
  let p7 := match body.expectedArrival with
    | some ea => { p6 with expectedArrival := if ea != "" then some ea else none }
    | none => p6
  let p8 := match files.mainImage with
    | some mf => { p7 with mainImage := mf.path, mainImagePublicId := mf.filename }
    | none => p7
  match files.otherPhotos with
  | some ofs =>
    { p8 with otherPhotos := ofs.map (fun f => f.path)
              otherPhotosPublicIds := ofs.map (fun f => f.filename) }
  | none => p8

/-- PUT /products/:id (src/server.js lines 248-316): look up the product,
apply the name step, return 400 if a supplied price is NaN, otherwise
apply the remaining mutations and save. -/
def putProduct (st : List Product) (id : String) (body : Body)
    (files : ReqFiles) : Resp × List Product :=
  match findById st id with
  | .error _ => (.serverError500 "Failed to update product", st)
  | .ok none => (.notFound404, st)
  | .ok (some p0) =>
    let p1 := nameStep p0 body
    if body.price.isSome && (parseFloat (body.price.getD "")).isNone then
      (.badRequest400 "Invalid price value" [], st)
    else
      saveProduct st "Failed to update product" (applyPutRest p1 body files)

/-- The three status-field mutations of the PATCH handler (src/server.js
lines 337-341), in source order: each of `status`, `statusNote` and
`expectedArrival` is overwritten exactly when present in the body. -/
def applyPatch (p0 : Product) (body : Body) : Product :=
  let p1 := match body.status with
    | some s => { p0 with status := s }
    | none => p0
  let p2 := match body.statusNote with
    | some sn => { p1 with statusNote := some (jsTrim sn) }
    | none => p1
  match body.expectedArrival with
  | some ea => { p2 with expectedArrival := if ea != "" then some ea else none }
  | none => p2

/-- PATCH /products/:id/status (src/server.js lines 319-351): look up the
product, 400 on a truthy status outside the enum, then overwrite the three
status fields that are present in the body and save. -/
def patchStatus (st : List Product) (id : String) (body : Body) : Resp × List Product :=
  match findById st id with
  | .error _ => (.serverError500 "Failed to update product status", st)
  | .ok none => (.notFound404, st)
  | .ok (some p0) =>
    if truthyOpt body.status && !(validStatuses.contains (body.status.getD "")) then
      (.badRequest400 "Invalid status" validStatuses, st)
    else
      saveProduct st "Failed to update product status" (applyPatch p0 body)

/-- DELETE /products/:id (src/server.js lines 354-377): 404 when the id
matches no document, otherwise best-effort blob deletion (no effect on the
store) followed by `findByIdAndDelete`. -/
def deleteProduct (st : List Product) (id : String) : Resp × List Product :=
  match findById st id with
  | .error _ => (.serverError500 "Failed to delete product", st)
  | .ok none => (.notFound404, st)
  | .ok (some _) => (.okMessage200, st.filter (fun q => q.id != id))

/-- A SiteConfig document (siteConfigSchema, src/unnamed/part_001 lines
54-63); every text field defaults to the empty string. -/
structure SiteConfig where
  id : Nat
  landingTitle : String
  landingDescription : String
  aboutText : String
  servicesText : String
  landingBanner : String
  landingBannerPublicId : String
  logo : String
  logoPublicId : String
deriving DecidableEq, Repr

/-- A freshly constructed `new SiteConfig()` with all schema defaults. -/
def defaultConfig (cid : Nat) : SiteConfig :=
  { id := cid, landingTitle := "", landingDescription := "", aboutText := ""
    servicesText := "", landingBanner := "", landingBannerPublicId := ""
    logo := "", logoPublicId := "" }

/-- The SiteConfig collection together with the store's id generator. -/
structure ConfigStore where
  configs : List SiteConfig
  nextId : Nat
deriving DecidableEq, Repr

/-- getOrCreateConfig (src/unnamed/part_001 lines 294-302), also the body
of GET /settings in src/server.js lines 403-419: `findOne`, and if no
config exists, save a default-valued one. -/
def getOrCreateConfig (cs : ConfigStore) : SiteConfig × ConfigStore :=
  match cs.configs.head? with
  | some c => (c, cs)
  | none =>
    let c := defaultConfig cs.nextId
    (c, ⟨cs.configs ++ [c], cs.nextId + 1⟩)

/-- Sample 24-hex-character identifier used by concrete instances. -/
def sampleId : String := "0123456789abcdef01234567"

/-- A schema-valid stored product used by concrete instances. -/
def sampleProduct : Product :=
  { id := sampleId, name := "Old", price := ⟨10, 0⟩, mainImage := "http://img/main.jpg"
    mainImagePublicId := "pid-main", otherPhotos := ["http://img/a.jpg"]
    otherPhotosPublicIds := ["pid-a"], description := "desc"
    classifications := "tags", status := "available"
    statusNote := none, expectedArrival := none, uploadDate := 0 }

/-- The empty request body. -/
def emptyBody : Body := ⟨none, none, none, none, none, none, none⟩

/-- The product created by the concrete upload used in witnesses: name
"Plug", price "19.99", main image `m`/`pm` and two other photos. -/
def pW : Product :=
  { id := sampleId, name := "Plug", price := ⟨1999, 2⟩, mainImage := "m"
    mainImagePublicId := "pm", otherPhotos := ["o1", "o2"]
    otherPhotosPublicIds := ["q1", "q2"], description := ""
    classifications := "", status := "available", statusNote := none
    expectedArrival := none, uploadDate := 0 }

/-- A request with no uploaded files. -/
def noFiles : ReqFiles := ⟨none, none⟩

/-! Helper lemmas characterizing the handler building blocks. -/

/-- The name step only touches `name`, and only for a truthy body name. -/
theorem nameStep_eq (p0 : Product) (b : Body) :
    nameStep p0 b =
      { p0 with name := if truthyOpt b.name then jsTrim (b.name.getD "") else p0.name } := by
  unfold nameStep
  cases ht : truthyOpt b.name <;> simp

/-- Field-by-field characterization of the PUT mutation chain. -/
theorem applyPutRest_eq (p1 : Product) (b : Body) (f : ReqFiles) :
    applyPutRest p1 b f =
      { id := p1.id
        name := p1.name
        price := match b.price with
          | some pr => (parseFloat pr).getD ⟨0, 0⟩
          | none => p1.price
        mainImage := match f.mainImage with
          | some mf => mf.path
          | none => p1.mainImage
        mainImagePublicId := match f.mainImage with
          | some mf => mf.filename
          | none => p1.mainImagePublicId
        otherPhotos := match f.otherPhotos with
          | some ofs => ofs.map (fun x => x.path)
          | none => p1.otherPhotos
        otherPhotosPublicIds := match f.otherPhotos with
          | some ofs => ofs.map (fun x => x.filename)
          | none => p1.otherPhotosPublicIds
        description := match b.description with
          | some d => d
          | none => p1.description
        classifications := match b.classifications with
          | some c => jsTrim c
          | none => p1.classifications
        status := match b.status with
          | some s => s
          | none => p1.status
        statusNote := match b.statusNote with
          | some sn => some (jsTrim sn)
          | none => p1.statusNote
        expectedArrival := match b.expectedArrival with
          | some ea => if ea != "" then some ea else none
          | none => p1.expectedArrival
        uploadDate := p1.uploadDate } := by
  obtain ⟨bn, bp, bd, bc, bs, bsn, bea⟩ := b
  obtain ⟨mi, oph⟩ := f
  cases bp <;> cases bd <;> cases bc <;> cases bs <;> cases bsn <;> cases bea <;>
    cases mi <;> cases oph <;> rfl

/-- Field-by-field characterization of the PATCH mutation chain. -/
theorem applyPatch_eq (p0 : Product) (b : Body) :
    applyPatch p0 b =
      { p0 with
        status := match b.status with
          | some s => s
          | none => p0.status
        statusNote := match b.statusNote with
          | some sn => some (jsTrim sn)
          | none => p0.statusNote
        expectedArrival := match b.expectedArrival with
          | some ea => if ea != "" then some ea else none
          | none => p0.expectedArrival } := by
  obtain ⟨bn, bp, bd, bc, bs, bsn, bea⟩ := b
  cases bs <;> cases bsn <;> cases bea <;> rfl

/-- Looking up an id in a singleton store finds its product. -/
theorem findById_single (p0 : Product) (hid : isWellFormedId p0.id = true) :
    findById [p0] p0.id = .ok (some p0) := by
  simp [findById, hid, List.find?]

/-- Saving a document whose id matches the singleton store replaces it. -/
theorem saveProduct_single (p0 p : Product) (msg : String)
    (h : p.id = p0.id) (hv : schemaValidates p = true) :
    saveProduct [p0] msg p = (.ok200 p, [p]) := by
  simp [saveProduct, hv, h]

/-- Branch characterization of the DELETE handler. -/
theorem deleteProduct_eq (st : List Product) (id : String) :
    deleteProduct st id =
      if isWellFormedId id then
        match st.find? (fun p => p.id == id) with
        | none => (.notFound404, st)
        | some _ => (.okMessage200, st.filter (fun q => q.id != id))
      else (.serverError500 "Failed to delete product", st) := by
  unfold deleteProduct findById
  cases hw : isWellFormedId id
  · simp
  · cases hf : st.find? (fun p => p.id == id) <;> simp [hf]

/-- Inversion of truthiness: a truthy body field is a non-empty string. -/
theorem truthyOpt_eq_true (o : Option String) (h : truthyOpt o = true) :
    ∃ s, o = some s ∧ (s != "") = true := by
  cases o with
  | none => simp [truthyOpt] at h
  | some s => exact ⟨s, rfl, by simpa [truthyOpt] using h⟩

/-- A 201 response from an insert carries exactly the inserted document. -/
theorem insertProduct_created (st : List Product) (msg : String) (q p : Product)
    (st' : List Product) (h : insertProduct st msg q = (.created201 p, st')) :
    p = q ∧ st' = st ++ [q] := by
  unfold insertProduct at h
  by_cases hv : schemaValidates q = true
  · rw [if_pos hv] at h
    simp only [Prod.mk.injEq, Resp.created201.injEq] at h
    exact ⟨h.1.symm, h.2.symm⟩
  · rw [if_neg hv] at h
    simp at h

/-- No document survives a delete-filter of its own id. -/
theorem find?_filter_self (st : List Product) (id : String) :
    (st.filter (fun q => q.id != id)).find? (fun q => q.id == id) = none := by
  rw [List.find?_eq_none]
  intro x hx
  have hne := (List.mem_filter.mp hx).2
  simp only [bne_iff_ne, ne_eq] at hne
  simp [hne]

/-- The patch chain never changes the document id. -/
theorem applyPatch_id (p0 : Product) (b : Body) : (applyPatch p0 b).id = p0.id := by
  rw [applyPatch_eq]

/-- The PUT chain never changes the document id. -/
theorem applyPutRest_nameStep_id (p0 : Product) (b : Body) (f : ReqFiles) :
    (applyPutRest (nameStep p0 b) b f).id = p0.id := by
  rw [applyPutRest_eq, nameStep_eq]

/-- Branch characterization of PUT on a singleton store holding the
addressed product. -/
theorem putProduct_key (p0 : Product) (b : Body) (f : ReqFiles)
    (hid : isWellFormedId p0.id = true) :
    putProduct [p0] p0.id b f =
      if b.price.isSome && (parseFloat (b.price.getD "")).isNone then
        (.badRequest400 "Invalid price value" [], [p0])
      else saveProduct [p0] "Failed to update product"
        (applyPutRest (nameStep p0 b) b f) := by
  unfold putProduct
  rw [findById_single p0 hid]

/-- Branch characterization of PATCH on a singleton store holding the
addressed product. -/
theorem patchStatus_key (p0 : Product) (b : Body)
    (hid : isWellFormedId p0.id = true) :
    patchStatus [p0] p0.id b =
      if truthyOpt b.status && !(validStatuses.contains (b.status.getD "")) then
        (.badRequest400 "Invalid status" validStatuses, [p0])
      else saveProduct [p0] "Failed to update product status" (applyPatch p0 b) := by
  unfold patchStatus
  rw [findById_single p0 hid]

/-- PATCH on a singleton store ends in one of exactly three ways: the
400 invalid-status rejection, the 500 save-validation rejection (store
unchanged either way), or a 200 replacing the document by the patched
one. -/
theorem patchStatus_cases (p0 : Product) (b : Body)
    (hid : isWellFormedId p0.id = true) :
    patchStatus [p0] p0.id b = (.badRequest400 "Invalid status" validStatuses, [p0]) ∨
    patchStatus [p0] p0.id b
      = (.serverError500 "Failed to update product status", [p0]) ∨
    patchStatus [p0] p0.id b = (.ok200 (applyPatch p0 b), [applyPatch p0 b]) := by
  rw [patchStatus_key p0 b hid]
  by_cases hc : (truthyOpt b.status && !(validStatuses.contains (b.status.getD ""))) = true
  · left
    rw [if_pos hc]
  · right
    rw [if_neg hc]
    unfold saveProduct
    by_cases hv : schemaValidates (applyPatch p0 b) = true
    · right
      rw [if_pos hv]
      simp [applyPatch_id]
    · left
      rw [if_neg hv]

/-- PUT on a singleton store ends in one of exactly three ways: the 400
invalid-price rejection, the 500 save-validation rejection (store
unchanged either way), or a 200 replacing the document by the updated
one. -/
theorem putProduct_cases (p0 : Product) (b : Body) (f : ReqFiles)
    (hid : isWellFormedId p0.id = true) :
    putProduct [p0] p0.id b f = (.badRequest400 "Invalid price value" [], [p0]) ∨
    putProduct [p0] p0.id b f = (.serverError500 "Failed to update product", [p0]) ∨
    putProduct [p0] p0.id b f
      = (.ok200 (applyPutRest (nameStep p0 b) b f),
         [applyPutRest (nameStep p0 b) b f]) := by
  rw [putProduct_key p0 b f hid]
  by_cases hc : (b.price.isSome && (parseFloat (b.price.getD "")).isNone) = true
  · left
    rw [if_pos hc]
  · right
    rw [if_neg hc]
    unfold saveProduct
    by_cases hv : schemaValidates (applyPutRest (nameStep p0 b) b f) = true
    · right
      rw [if_pos hv]
      simp [applyPutRest_nameStep_id]
    · left
      rw [if_neg hv]

/-- C7: PATCH /products/:id/status overwrites only `status`, `statusNote`
and `expectedArrival`: for every request body, every other stored field is
unchanged in the response document and in the store, the store is
untouched on every non-200 outcome, and a body carrying neither `status`
nor `expectedArrival` (e.g. only `statusNote`) leaves those two fields
unchanged. -/
theorem patch_status_frame (p0 : Product) (body : Body)
    (hid : isWellFormedId p0.id = true) :
    (∀ p', (patchStatus [p0] p0.id body).1 = .ok200 p' →
      (p'.name = p0.name ∧ p'.price = p0.price ∧ p'.mainImage = p0.mainImage ∧
       p'.mainImagePublicId = p0.mainImagePublicId ∧
       p'.otherPhotos = p0.otherPhotos ∧
       p'.otherPhotosPublicIds = p0.otherPhotosPublicIds ∧
       p'.description = p0.description ∧ p'.classifications = p0.classifications ∧
       p'.uploadDate = p0.uploadDate) ∧
      (patchStatus [p0] p0.id body).2 = [p']) ∧
    ((∀ p', (patchStatus [p0] p0.id body).1 ≠ .ok200 p') →
      (patchStatus [p0] p0.id body).2 = [p0]) ∧
    (body.status = none → body.expectedArrival = none →
      ∀ p', (patchStatus [p0] p0.id body).1 = .ok200 p' →
        p'.status = p0.status ∧ p'.expectedArrival = p0.expectedArrival) := by
  refine ⟨?_, ?_, ?_⟩
  · intro p' h
    rcases patchStatus_cases p0 body hid with hres | hres | hres <;> rw [hres] at h ⊢
    · simp at h
    · simp at h
    · simp only [Resp.ok200.injEq] at h
      subst h
      refine ⟨⟨?_, ?_, ?_, ?_, ?_, ?_, ?_, ?_, ?_⟩, rfl⟩ <;> rw [applyPatch_eq]
  · intro hall
    rcases patchStatus_cases p0 body hid with hres | hres | hres <;> rw [hres]
    · exact absurd (by rw [hres]) (hall (applyPatch p0 body))
  · intro hs hea p' h
    rcases patchStatus_cases p0 body hid with hres | hres | hres <;> rw [hres] at h
    · simp at h
    · simp at h
    · simp only [Resp.ok200.injEq] at h
      subst h
      rw [applyPatch_eq]
      simp [hs, hea]

/-- Witness for `patch_status_frame`: a body carrying only `statusNote`
leaves `status` and `expectedArrival` (and every non-status field)
unchanged on the sample product. -/
theorem patch_status_frame_witness :
    (patchStatus [sampleProduct] sampleId
        { emptyBody with statusNote := some "back soon" }).1
      = .ok200 { sampleProduct with statusNote := some "back soon" } ∧
    ({ sampleProduct with statusNote := some "back soon" } : Product).status
      = sampleProduct.status ∧
    ({ sampleProduct with statusNote := some "back soon" } : Product).expectedArrival
      = sampleProduct.expectedArrival := by
  have h := patch_status_frame sampleProduct
    { emptyBody with statusNote := some "back soon" } (by decide)
  refine ⟨by decide, ?_⟩
  exact h.2.2 rfl rfl { sampleProduct with statusNote := some "back soon" } (by decide)

/-- C5: `otherPhotos` and `otherPhotosPublicIds` are parallel arrays:
every 201-created product carries the path map and filename map of the
same uploaded-file list (equal length, matching index order), and the
whole-array replace of PUT preserves the equal-length invariant. -/
theorem other_photos_parallel_invariant :
    (∀ st fid now body files p st',
      createProduct st fid now body files = (.created201 p, st') →
      p.otherPhotos = (files.otherPhotos.getD []).map (fun f => f.path) ∧
      p.otherPhotosPublicIds = (files.otherPhotos.getD []).map (fun f => f.filename) ∧
      p.otherPhotos.length = p.otherPhotosPublicIds.length) ∧
    (∀ p0 body files p st',
      isWellFormedId p0.id = true →
      p0.otherPhotos.length = p0.otherPhotosPublicIds.length →
      putProduct [p0] p0.id body files = (.ok200 p, st') →
      p.otherPhotos.length = p.otherPhotosPublicIds.length) := by
  constructor
  · intro st fid now body files p st' h
    unfold createProduct at h
    split at h
    · simp at h
    · split at h
      · simp at h
      · split at h
        · simp at h
        · obtain ⟨hp, -⟩ := insertProduct_created _ _ _ _ _ h
          subst hp
          refine ⟨rfl, rfl, ?_⟩
          simp [buildCreateDoc]
  · intro p0 body files p st' hid hlen h
    rcases putProduct_cases p0 body files hid with hres | hres | hres <;> rw [hres] at h
    · simp at h
    · simp at h
    · simp only [Prod.mk.injEq, Resp.ok200.injEq] at h
      obtain ⟨hp, -⟩ := h
      subst hp
      rw [applyPutRest_eq, nameStep_eq]
      cases hof : files.otherPhotos <;> simp [hlen]

/-- Witness for `other_photos_parallel_invariant`: a concrete creation
with two extra photos. -/
theorem other_photos_parallel_invariant_witness :
    pW.otherPhotos.length = pW.otherPhotosPublicIds.length :=
  (other_photos_parallel_invariant.1 []
    sampleId 0 { emptyBody with name := some "Plug", price := some "19.99" }
    ⟨some ⟨"m", "pm"⟩, some [⟨"o1", "q1"⟩, ⟨"o2", "q2"⟩]⟩ pW [pW] (by decide)).2.2

/-- C6: starting from a store with no config document, two successive
(non-concurrent) GET /settings calls both succeed, return configs with
identical default field values and the same identifier, and exactly one
config document exists in the store afterwards; every later get-or-create
access leaves that single document as the only one. -/
theorem settings_singleton (cs : ConfigStore) (h : cs.configs = []) :
    (getOrCreateConfig cs).1 = defaultConfig cs.nextId ∧
    (getOrCreateConfig (getOrCreateConfig cs).2).1 = (getOrCreateConfig cs).1 ∧
    (getOrCreateConfig cs).2.configs = [(getOrCreateConfig cs).1] ∧
    (getOrCreateConfig (getOrCreateConfig cs).2).2.configs = [(getOrCreateConfig cs).1] ∧
    (∀ cs' : ConfigStore, cs'.configs.length = 1 →
      (getOrCreateConfig cs').2.configs = cs'.configs ∧
      (getOrCreateConfig cs').1 ∈ cs'.configs) := by
  refine ⟨?_, ?_, ?_, ?_, ?_⟩
  · simp [getOrCreateConfig, h]
  · simp [getOrCreateConfig, h]
  · simp [getOrCreateConfig, h]
  · simp [getOrCreateConfig, h]
  · intro cs' h1
    obtain ⟨a, ha⟩ := List.length_eq_one.mp h1
    simp [getOrCreateConfig, ha]

/-- Witness for `settings_singleton` at the empty config store. -/
theorem settings_singleton_witness :
    (getOrCreateConfig ⟨[], 0⟩).1 = defaultConfig 0 ∧
    (getOrCreateConfig (getOrCreateConfig ⟨[], 0⟩).2).1 = (getOrCreateConfig ⟨[], 0⟩).1 :=
  ⟨(settings_singleton ⟨[], 0⟩ rfl).1, (settings_singleton ⟨[], 0⟩ rfl).2.1⟩

/-- C9: deleting a non-existent id yields 404 with the store unchanged;
deleting an existing id twice yields 200 (document removed) then 404. -/
theorem delete_idempotent_404 (st : List Product) (id : String)
    (hid : isWellFormedId id = true) :
    (st.find? (fun q => q.id == id) = none → deleteProduct st id = (.notFound404, st)) ∧
    (∀ p, st.find? (fun q => q.id == id) = some p →
      (deleteProduct st id).1 = .okMessage200 ∧
      deleteProduct (deleteProduct st id).2 id = (.notFound404, (deleteProduct st id).2)) := by
  constructor
  · intro hn
    rw [deleteProduct_eq, if_pos hid, hn]
  · intro p hp
    have h2 : (deleteProduct st id).2 = st.filter (fun q => q.id != id) := by
      rw [deleteProduct_eq, if_pos hid, hp]
    refine ⟨?_, ?_⟩
    · rw [deleteProduct_eq, if_pos hid, hp]
    · rw [h2, deleteProduct_eq, if_pos hid, find?_filter_self]

/-- Witness for `delete_idempotent_404`: deleting a missing id from the
empty store and double-deleting the sample product. -/
theorem delete_idempotent_404_witness :
    deleteProduct [] sampleId = (.notFound404, []) ∧
    (deleteProduct [sampleProduct] sampleId).1 = .okMessage200 ∧
    deleteProduct (deleteProduct [sampleProduct] sampleId).2 sampleId
      = (.notFound404, (deleteProduct [sampleProduct] sampleId).2) :=
  ⟨(delete_idempotent_404 [] sampleId (by decide)).1 (by decide),
   ((delete_idempotent_404 [sampleProduct] sampleId (by decide)).2 sampleProduct (by decide)).1,
   ((delete_idempotent_404 [sampleProduct] sampleId (by decide)).2 sampleProduct (by decide)).2⟩

/-- C10: on the id-taking product routes, 404 is produced exactly when the
id is a well-formed store identifier that matches no document; a malformed
id makes the lookup throw and the catch branch yields that handler's 500
envelope instead. -/
theorem malformed_id_500_not_404 (st : List Product) (id : String) :
    (isWellFormedId id = false →
      getProduct st id = .serverError500 "Failed to fetch product" ∧
      (∀ body files, putProduct st id body files
        = (.serverError500 "Failed to update product", st)) ∧
      (∀ body, patchStatus st id body
        = (.serverError500 "Failed to update product status", st)) ∧
      deleteProduct st id = (.serverError500 "Failed to delete product", st)) ∧
    (getProduct st id = .notFound404 ↔
      isWellFormedId id = true ∧ st.find? (fun p => p.id == id) = none) ∧
    ((deleteProduct st id).1 = .notFound404 ↔
      isWellFormedId id = true ∧ st.find? (fun p => p.id == id) = none) := by
  refine ⟨?_, ?_, ?_⟩
  · intro hw
    refine ⟨?_, fun body files => ?_, fun body => ?_, ?_⟩ <;>
      simp [getProduct, putProduct, patchStatus, deleteProduct, findById, hw]
  · cases hw : isWellFormedId id
    · simp [getProduct, findById, hw]
    · cases hf : st.find? (fun p => p.id == id) <;>
        simp [getProduct, findById, hw, hf]
  · cases hw : isWellFormedId id
    · simp [deleteProduct, findById, hw]
    · cases hf : st.find? (fun p => p.id == id) <;>
        simp [deleteProduct, findById, hw, hf]

/-- Witness for `malformed_id_500_not_404` at a malformed id. -/
theorem malformed_id_500_not_404_witness :
    getProduct [sampleProduct] "bad" = .serverError500 "Failed to fetch product" ∧
    deleteProduct [sampleProduct] "bad"
      = (.serverError500 "Failed to delete product", [sampleProduct]) :=
  ⟨((malformed_id_500_not_404 [sampleProduct] "bad").1 (by decide)).1,
   ((malformed_id_500_not_404 [sampleProduct] "bad").1 (by decide)).2.2.2⟩

/-- C8: a PUT whose price field is present but does not parse as a number
yields 400 and the stored document is unchanged (no save occurs), whatever
the other fields of the request are. -/
theorem put_price_nan_atomic (st : List Product) (id : String) (body : Body)
    (files : ReqFiles) (p0 : Product)
    (hw : isWellFormedId id = true)
    (hf : st.find? (fun p => p.id == id) = some p0)
    (pr : String) (hpr : body.price = some pr) (hnan : parseFloat pr = none) :
    putProduct st id body files = (.badRequest400 "Invalid price value" [], st) := by
  simp [putProduct, findById, hw, hf, hpr, hnan]

/-- Witness for `put_price_nan_atomic`: price `"abc"` alongside a valid
name update. -/
theorem put_price_nan_atomic_witness :
    putProduct [sampleProduct] sampleId
        { emptyBody with name := some "New", price := some "abc" } noFiles
      = (.badRequest400 "Invalid price value" [], [sampleProduct]) :=
  put_price_nan_atomic [sampleProduct] sampleId
    { emptyBody with name := some "New", price := some "abc" } noFiles sampleProduct
    (by decide) (by decide) "abc" rfl (by decide)

/-- C1 counterexample: updating the sample product with a body whose
`name` is explicitly the empty string succeeds (200) but leaves the stored
name `"Old"` — the empty-string name does not overwrite the stored name,
because the handler guards the assignment with JS truthiness (`if (name)`,
src/server.js line 270). -/
theorem put_empty_name_claim_ce :
    (putProduct [sampleProduct] sampleId
        { emptyBody with name := some "" } noFiles).1 = .ok200 sampleProduct ∧
    (putProduct [sampleProduct] sampleId
        { emptyBody with name := some "" } noFiles).2.map (fun p => p.name)
      = ["Old"] ∧
    ("Old" : String) ≠ "" := by
  exact ⟨by decide, by decide, by decide⟩

/-- C1 (amended): for every existing product and update body whose price
(if present) parses, PUT applies exactly the supplied fields to the
document: a field absent from the body keeps its stored value, and a
field present in the body — even as the empty string — is applied for
`description`, `classifications`, `status`, `statusNote` and
`expectedArrival` (the latter cleared by an empty value); the exception is
`name`, where an empty string is treated like an absent field and a
non-empty name overwrites trimmed.  The mutated document is stored and
returned with 200 exactly when it passes schema validation; when the
applied fields make it invalid — in particular a present status outside
the enum, the empty string included — the save fails, the response is 500
and the stored document is unchanged, discarding the whole update. -/
theorem put_partial_update_amended (p0 : Product) (body : Body) (files : ReqFiles)
    (hid : isWellFormedId p0.id = true)
    (hpr : ∀ pr, body.price = some pr → (parseFloat pr).isSome = true) :
    (schemaValidates (applyPutRest (nameStep p0 body) body files) = true →
      putProduct [p0] p0.id body files =
        (.ok200 (applyPutRest (nameStep p0 body) body files),
         [applyPutRest (nameStep p0 body) body files])) ∧
    (schemaValidates (applyPutRest (nameStep p0 body) body files) = false →
      putProduct [p0] p0.id body files
        = (.serverError500 "Failed to update product", [p0])) ∧
    (∀ s, body.status = some s → validStatuses.contains s = false →
      schemaValidates (applyPutRest (nameStep p0 body) body files) = false) ∧
    ((body.name = none ∨ body.name = some "") →
      (applyPutRest (nameStep p0 body) body files).name = p0.name) ∧
    (∀ s, body.name = some s → s ≠ "" →
      (applyPutRest (nameStep p0 body) body files).name = jsTrim s) ∧
    (body.description = none →
      (applyPutRest (nameStep p0 body) body files).description = p0.description) ∧
    (∀ s, body.description = some s →
      (applyPutRest (nameStep p0 body) body files).description = s) ∧
    (body.classifications = none →
      (applyPutRest (nameStep p0 body) body files).classifications
        = p0.classifications) ∧
    (∀ s, body.classifications = some s →
      (applyPutRest (nameStep p0 body) body files).classifications = jsTrim s) ∧
    (body.status = none →
      (applyPutRest (nameStep p0 body) body files).status = p0.status) ∧
    (∀ s, body.status = some s →
      (applyPutRest (nameStep p0 body) body files).status = s) ∧
    (body.statusNote = none →
      (applyPutRest (nameStep p0 body) body files).statusNote = p0.statusNote) ∧
    (∀ s, body.statusNote = some s →
      (applyPutRest (nameStep p0 body) body files).statusNote = some (jsTrim s)) ∧
    (body.expectedArrival = none →
      (applyPutRest (nameStep p0 body) body files).expectedArrival
        = p0.expectedArrival) ∧
    (∀ s, body.expectedArrival = some s →
      (applyPutRest (nameStep p0 body) body files).expectedArrival
        = (if s != "" then some s else none)) ∧
    (body.price = none →
      (applyPutRest (nameStep p0 body) body files).price = p0.price) ∧
    (∀ pr v, body.price = some pr → parseFloat pr = some v →
      (applyPutRest (nameStep p0 body) body files).price = v) ∧
    (files.mainImage = none →
      (applyPutRest (nameStep p0 body) body files).mainImage = p0.mainImage ∧
      (applyPutRest (nameStep p0 body) body files).mainImagePublicId
        = p0.mainImagePublicId) ∧
    (files.otherPhotos = none →
      (applyPutRest (nameStep p0 body) body files).otherPhotos = p0.otherPhotos ∧
      (applyPutRest (nameStep p0 body) body files).otherPhotosPublicIds
        = p0.otherPhotosPublicIds) := by
  have hcond : (body.price.isSome && (parseFloat (body.price.getD "")).isNone)
      = false := by
    cases hb : body.price with
    | none => rfl
    | some pr => simp [hpr pr hb]
  refine ⟨?_, ?_, ?_, ?_, ?_, ?_, ?_, ?_, ?_, ?_, ?_, ?_, ?_, ?_, ?_, ?_, ?_, ?_, ?_⟩
  · intro hval
    rw [putProduct_key p0 body files hid, hcond]
    rw [if_neg (by simp)]
    unfold saveProduct
    rw [if_pos hval]
    simp [applyPutRest_nameStep_id]
  · intro hval
    rw [putProduct_key p0 body files hid, hcond]
    rw [if_neg (by simp)]
    unfold saveProduct
    rw [if_neg (by simp [hval])]
  · intro s hs hcont
    have hmem : s ∉ validStatuses := by simpa using hcont
    have hstat : (applyPutRest (nameStep p0 body) body files).status = s := by
      rw [applyPutRest_eq]
      simp [hs]
    simp [schemaValidates, hstat, hmem]
  · intro h
    rw [applyPutRest_eq, nameStep_eq]
    rcases h with h | h <;> simp [h, truthyOpt]
  · intro s h hs
    rw [applyPutRest_eq, nameStep_eq]
    simp [h, truthyOpt, hs]
  · intro h
    rw [applyPutRest_eq, nameStep_eq]
    simp [h]
  · intro s h
    rw [applyPutRest_eq]
    simp [h]
  · intro h
    rw [applyPutRest_eq, nameStep_eq]
    simp [h]
  · intro s h
    rw [applyPutRest_eq]
    simp [h]
  · intro h
    rw [applyPutRest_eq, nameStep_eq]
    simp [h]
  · intro s h
    rw [applyPutRest_eq]
    simp [h]
  · intro h
    rw [applyPutRest_eq, nameStep_eq]
    simp [h]
  · intro s h
    rw [applyPutRest_eq]
    simp [h]
  · intro h
    rw [applyPutRest_eq, nameStep_eq]
    simp [h]
  · intro s h
    rw [applyPutRest_eq]
    simp [h]
  · intro h
    rw [applyPutRest_eq, nameStep_eq]
    simp [h]
  · intro pr v h hv
    rw [applyPutRest_eq]
    simp [h, hv]
  · intro h
    rw [applyPutRest_eq, nameStep_eq]
    simp [h]
  · intro h
    rw [applyPutRest_eq, nameStep_eq]
    simp [h]

/-- Witness for `put_partial_update_amended`: explicit empty-string
`description` overwrites while the absent fields and the empty-string
name stay unchanged on the sample product, and explicit empty-string
`status` makes the save fail with 500, leaving the store unchanged. -/
theorem put_partial_update_amended_witness :
    putProduct [sampleProduct] sampleId
        { emptyBody with name := some "", description := some "" } noFiles
      = (.ok200 { sampleProduct with description := "" },
         [{ sampleProduct with description := "" }]) ∧
    ({ sampleProduct with description := "" } : Product).name = "Old" ∧
    putProduct [sampleProduct] sampleId
        { emptyBody with status := some "" } noFiles
      = (.serverError500 "Failed to update product", [sampleProduct]) := by
  have h1 := put_partial_update_amended sampleProduct
    { emptyBody with name := some "", description := some "" } noFiles
    (by decide) (fun pr hpr => Option.noConfusion hpr)
  have h2 := put_partial_update_amended sampleProduct
    { emptyBody with status := some "" } noFiles
    (by decide) (fun pr hpr => Option.noConfusion hpr)
  exact ⟨h1.1 (by decide), rfl, h2.2.1 (by decide)⟩

/-- C2 counterexample: an invalid status on PUT and on POST does not
produce the claimed 400-with-valid-statuses response; both handlers skip
the status check and the schema enum rejection at save yields 500 (store
unchanged). -/
theorem invalid_status_400_claim_ce :
    putProduct [sampleProduct] sampleId
        { emptyBody with status := some "bogus" } noFiles
      = (.serverError500 "Failed to update product", [sampleProduct]) ∧
    createProduct [] sampleId 0
        { emptyBody with name := some "X", price := some "5", status := some "bogus" }
        ⟨some ⟨"u", "pid-u"⟩, none⟩
      = (.serverError500 "Failed to create product", []) := by
  exact ⟨by decide, by decide⟩

/-- C2 (amended): only PATCH rejects a non-empty invalid status with 400
and the list of valid statuses; a PATCH or PUT supplying the empty-string
status assigns it, fails the schema enum at save, and returns 500 with
nothing written; a truthy out-of-enum status on POST or PUT is likewise
rejected at save with 500 and nothing written.  The one exception where a
document IS written: POST with the empty-string status — the truthiness
guard `if (status)` drops the field and the product is created with 201
carrying the default status `available`. -/
theorem invalid_status_amended :
    (∀ st id body p0 s,
      isWellFormedId id = true → st.find? (fun p => p.id == id) = some p0 →
      body.status = some s → s ≠ "" → validStatuses.contains s = false →
      patchStatus st id body = (.badRequest400 "Invalid status" validStatuses, st)) ∧
    (∀ st id body p0,
      isWellFormedId id = true → st.find? (fun p => p.id == id) = some p0 →
      body.status = some "" →
      patchStatus st id body
        = (.serverError500 "Failed to update product status", st)) ∧
    (∀ st id body files p0 s,
      isWellFormedId id = true → st.find? (fun p => p.id == id) = some p0 →
      body.status = some s → validStatuses.contains s = false →
      (∀ pr, body.price = some pr → (parseFloat pr).isSome = true) →
      putProduct st id body files = (.serverError500 "Failed to update product", st)) ∧
    (∀ st fid now body files s mf,
      truthyOpt body.name = true → truthyOpt body.price = true →
      (parseFloat (body.price.getD "")).isSome = true →
      files.mainImage = some mf → body.status = some s → s ≠ "" →
      validStatuses.contains s = false →
      createProduct st fid now body files
        = (.serverError500 "Failed to create product", st)) ∧
    (∀ st fid now body files mf,
      truthyOpt body.name = true → truthyOpt body.price = true →
      (parseFloat (body.price.getD "")).isSome = true →
      files.mainImage = some mf → body.status = some "" →
      schemaValidates (buildCreateDoc fid now body mf (files.otherPhotos.getD []))
        = true →
      createProduct st fid now body files
        = (.created201 (buildCreateDoc fid now body mf (files.otherPhotos.getD [])),
           st ++ [buildCreateDoc fid now body mf (files.otherPhotos.getD [])]) ∧
      (buildCreateDoc fid now body mf (files.otherPhotos.getD [])).status
        = "available") := by
  refine ⟨?_, ?_, ?_, ?_, ?_⟩
  · intro st id body p0 s hw hf hs hne hcont
    have hmem : s ∉ validStatuses := by simpa using hcont
    unfold patchStatus
    simp [findById, hw, hf, hs, truthyOpt, hne, hmem]
  · intro st id body p0 hw hf hs
    have hst : (applyPatch p0 body).status = "" := by
      rw [applyPatch_eq]
      simp [hs]
    have hval : schemaValidates (applyPatch p0 body) = false := by
      simp [schemaValidates, hst, show ("" : String) ∉ validStatuses from by decide]
    unfold patchStatus
    simp [findById, hw, hf, hs, truthyOpt, saveProduct, hval]
  · intro st id body files p0 s hw hf hs hcont hpr
    have hmem : s ∉ validStatuses := by simpa using hcont
    have hcond : (body.price.isSome && (parseFloat (body.price.getD "")).isNone)
        = false := by
      cases hb : body.price with
      | none => rfl
      | some pr => simp [hpr pr hb]
    have hstat : (applyPutRest (nameStep p0 body) body files).status = s := by
      rw [applyPutRest_eq]
      simp [hs]
    have hval : schemaValidates (applyPutRest (nameStep p0 body) body files)
        = false := by
      simp [schemaValidates, hstat, hmem]
    unfold putProduct
    simp [findById, hw, hf, hcond, saveProduct, hval]
  · intro st fid now body files s mf hn htp hps hmf hs hne hcont
    obtain ⟨ns, hn1, hn2⟩ := truthyOpt_eq_true _ hn
    obtain ⟨ps, hp1, hp2⟩ := truthyOpt_eq_true _ htp
    obtain ⟨v, hv⟩ := Option.isSome_iff_exists.mp hps
    rw [hp1] at hv
    simp only [Option.getD_some] at hv
    have hmem : s ∉ validStatuses := by simpa using hcont
    have hbe : (s != "") = true := by simpa using hne
    unfold createProduct buildCreateDoc
    simp [hn1, hn2, hp1, hp2, hv, hmf, insertProduct, schemaValidates, hs,
      truthyOpt, hbe, hmem]
  · intro st fid now body files mf hn htp hps hmf hs hval
    have hnone : (parseFloat (body.price.getD "")).isNone = false := by
      obtain ⟨v, hv⟩ := Option.isSome_iff_exists.mp hps
      simp [hv]
    constructor
    · unfold createProduct
      simp [hn, htp, hnone, hmf, insertProduct, hval]
    · unfold buildCreateDoc
      simp [hs, truthyOpt]

/-- Witness for `invalid_status_amended`: PATCH with status `"bogus"` on
the sample product yields the 400 envelope carrying the valid statuses,
while POST with the empty-string status creates the product with the
default status `available`. -/
theorem invalid_status_amended_witness :
    patchStatus [sampleProduct] sampleId { emptyBody with status := some "bogus" }
      = (.badRequest400 "Invalid status" validStatuses, [sampleProduct]) ∧
    createProduct [] sampleId 0
        { emptyBody with name := some "X", price := some "5", status := some "" }
        ⟨some ⟨"u", "pid-u"⟩, none⟩
      = (.created201 (buildCreateDoc sampleId 0
            { emptyBody with name := some "X", price := some "5", status := some "" }
            ⟨"u", "pid-u"⟩ []),
         [buildCreateDoc sampleId 0
            { emptyBody with name := some "X", price := some "5", status := some "" }
            ⟨"u", "pid-u"⟩ []]) ∧
    (buildCreateDoc sampleId 0
        { emptyBody with name := some "X", price := some "5", status := some "" }
        ⟨"u", "pid-u"⟩ []).status = "available" :=
  ⟨invalid_status_amended.1 [sampleProduct] sampleId
     { emptyBody with status := some "bogus" } sampleProduct "bogus"
     (by decide) (by decide) rfl (by decide) (by decide),
   (invalid_status_amended.2.2.2.2 [] sampleId 0
     { emptyBody with name := some "X", price := some "5", status := some "" }
     ⟨some ⟨"u", "pid-u"⟩, none⟩ ⟨"u", "pid-u"⟩
     (by decide) (by decide) (by decide) rfl rfl (by decide)).1,
   (invalid_status_amended.2.2.2.2 [] sampleId 0
     { emptyBody with name := some "X", price := some "5", status := some "" }
     ⟨some ⟨"u", "pid-u"⟩, none⟩ ⟨"u", "pid-u"⟩
     (by decide) (by decide) (by decide) rfl rfl (by decide)).2⟩

/-- C3 counterexample: a creation whose name is whitespace-only passes the
handler's truthiness check, fails the schema's required-after-trim check
at save, and yields 500 instead of the claimed 400 (no product created). -/
theorem create_name_required_claim_ce :
    createProduct [] sampleId 0
        { emptyBody with name := some "   ", price := some "19.99" }
        ⟨some ⟨"http://img/m.jpg", "pid-m"⟩, none⟩
      = (.serverError500 "Failed to create product", []) := by decide

/-- C3 (amended): a creation with a missing or empty name is rejected with
400 "name required"; a whitespace-only name (non-empty but trimming to
empty) is not caught by the handler and — with a valid price and main
image — fails schema validation at save with 500; in every case with a
name that trims to empty no product document is created. -/
theorem create_name_required_amended (st : List Product) (fid : String) (now : Nat)
    (body : Body) (files : ReqFiles) :
    (truthyOpt body.name = false →
      createProduct st fid now body files
        = (.badRequest400 "Product name is required" [], st)) ∧
    (∀ s mf, body.name = some s → s ≠ "" → jsTrim s = "" →
      truthyOpt body.price = true →
      (parseFloat (body.price.getD "")).isSome = true →
      files.mainImage = some mf →
      createProduct st fid now body files
        = (.serverError500 "Failed to create product", st)) ∧
    (∀ s, body.name = some s → jsTrim s = "" →
      (createProduct st fid now body files).2 = st) := by
  have hjt : jsTrim "" = "" := rfl
  refine ⟨?_, ?_, ?_⟩
  · intro hn
    unfold createProduct
    simp [hn]
  · intro s mf hn hs h3 htp hps hmf
    obtain ⟨ps, hp1, hp2⟩ := truthyOpt_eq_true _ htp
    obtain ⟨v, hv⟩ := Option.isSome_iff_exists.mp hps
    rw [hp1] at hv
    simp only [Option.getD_some] at hv
    have hbe : (s != "") = true := by simpa using hs
    unfold createProduct buildCreateDoc
    simp [hn, hbe, hp1, hp2, hv, hmf, insertProduct, schemaValidates, truthyOpt,
      h3, hjt]
  · intro s hn h3
    unfold createProduct
    split
    · rfl
    · split
      · rfl
      · split
        · rfl
        · unfold insertProduct
          split
          · rename_i hv
            exfalso
            simp [schemaValidates, buildCreateDoc, hn, h3, hjt] at hv
          · rfl

/-- Witness for `create_name_required_amended`: the empty body is rejected
with the 400 name-required envelope. -/
theorem create_name_required_amended_witness :
    createProduct [] sampleId 0 emptyBody noFiles
      = (.badRequest400 "Product name is required" [], []) :=
  (create_name_required_amended [] sampleId 0 emptyBody noFiles).1 rfl

/-- C4 counterexample: a negative price is not rejected with 400 — it
passes the handlers' NaN checks on both PUT and POST and is rejected by
the schema's min-0 check at save, yielding 500 (store unchanged). -/
theorem price_validation_claim_ce :
    putProduct [sampleProduct] sampleId
        { emptyBody with price := some "-5" } noFiles
      = (.serverError500 "Failed to update product", [sampleProduct]) ∧
    createProduct [] sampleId 0
        { emptyBody with name := some "X", price := some "-5" }
        ⟨some ⟨"u", "pid-u"⟩, none⟩
      = (.serverError500 "Failed to create product", []) := by
  exact ⟨by decide, by decide⟩

/-- C4 (amended): a supplied price that does not parse as a number yields
400 on both POST ("Valid price is required") and PUT ("Invalid price
value") with the store unchanged; a price that parses to a negative
number passes the handler checks and is rejected by the schema's min-0
validation at save, yielding 500 with the store unchanged — in both
failure modes no document is written with that price. -/
theorem price_validation_amended :
    (∀ st fid now body files pr,
      truthyOpt body.name = true → body.price = some pr → parseFloat pr = none →
      createProduct st fid now body files
        = (.badRequest400 "Valid price is required" [], st)) ∧
    (∀ st fid now body files pr v mf,
      truthyOpt body.name = true → body.price = some pr → parseFloat pr = some v →
      v.mant < 0 → files.mainImage = some mf →
      createProduct st fid now body files
        = (.serverError500 "Failed to create product", st)) ∧
    (∀ st id body files p0 pr,
      isWellFormedId id = true → st.find? (fun p => p.id == id) = some p0 →
      body.price = some pr → parseFloat pr = none →
      putProduct st id body files = (.badRequest400 "Invalid price value" [], st)) ∧
    (∀ st id body files p0 pr v,
      isWellFormedId id = true → st.find? (fun p => p.id == id) = some p0 →
      body.price = some pr → parseFloat pr = some v → v.mant < 0 →
      putProduct st id body files
        = (.serverError500 "Failed to update product", st)) := by
  refine ⟨?_, ?_, ?_, ?_⟩
  · intro st fid now body files pr hn hp hnan
    unfold createProduct
    simp [hn, hp, hnan]
  · intro st fid now body files pr v mf hn hp hv hneg hmf
    obtain ⟨ns, hn1, hn2⟩ := truthyOpt_eq_true _ hn
    have hpr_ne : pr ≠ "" := by
      intro he
      rw [he] at hv
      rw [show parseFloat "" = none from by decide] at hv
      exact Option.noConfusion hv
    have hp2 : (pr != "") = true := by simpa using hpr_ne
    have hmant : ¬(0 ≤ v.mant) := not_le.mpr hneg
    unfold createProduct buildCreateDoc
    simp [hn1, hn2, hp, hp2, hv, hmf, insertProduct, schemaValidates, truthyOpt,
      hmant]
  · intro st id body files p0 pr hw hf hp hnan
    simp [putProduct, findById, hw, hf, hp, hnan]
  · intro st id body files p0 pr v hw hf hp hv hneg
    have hprice : (applyPutRest (nameStep p0 body) body files).price = v := by
      rw [applyPutRest_eq]
      simp [hp, hv]
    have hd : decide (0 ≤ v.mant) = false := decide_eq_false (not_le.mpr hneg)
    have hval : schemaValidates (applyPutRest (nameStep p0 body) body files)
        = false := by
      simp [schemaValidates, hprice, hd]
    unfold putProduct
    simp [findById, hw, hf, hp, hv, saveProduct, hval]

/-- Witness for `price_validation_amended`: POST with price `"zzz"` is
rejected with the 400 price envelope. -/
theorem price_validation_amended_witness :
    createProduct [] sampleId 0
        { emptyBody with name := some "X", price := some "zzz" } noFiles
      = (.badRequest400 "Valid price is required" [], []) :=
  price_validation_amended.1 [] sampleId 0
    { emptyBody with name := some "X", price := some "zzz" } noFiles "zzz"
    (by decide) rfl (by decide)

example : parseFloat "19.99" = some ⟨1999, 2⟩ := by decide
example : parseFloat "-5" = some ⟨-5, 0⟩ := by decide
example : parseFloat "abc" = none := by decide
example : parseFloat "" = none := by decide
example : schemaValidates sampleProduct = true := by decide
example : isWellFormedId sampleId = true := by decide

end HomeBack
